import Mathlib

/-!
Verification development for the rule-based natural-language-to-SQL core of the
Video-Analytics-BOT repository (`src/bot/nlp_processor.py`).

Python strings are modelled as `List Char`.  Python's `str.lower`/`str.upper`
are modelled on the alphabets that actually occur (ASCII and the Cyrillic
block); the regex character class `\d` is modelled as the ASCII digits and
`\s` as the ASCII whitespace characters, which are the characters the
repository's vocabulary and queries use.  Each `re.search` call of the source
is modelled by a hand-written scanner that tries the pattern at every start
position from the left (Python's leftmost-match rule) and reproduces the
backtracking behaviour of the concrete pattern, as argued in comments at each
scanner.  The OpenAI transport and `json.loads` boundary is modelled by the
`LLMOutcome` type recording the case analysis the source itself performs on
that boundary; the database cursor boundary of
`execute_query_and_get_result` is modelled by `DbOutcome`.
-/

/-- Shorthand: the character list of a string literal. -/
def tl (s : String) : List Char := s.toList

/-- The apostrophe character used to quote SQL string literals. -/
def apos : Char := Char.ofNat 39

/-- Model of Python `str.lower` on a single character: ASCII letters and the
Cyrillic letters А..Я and Ё (the alphabets occurring in the program's data). -/
def pyLower (c : Char) : Char :=
  if 'A' ≤ c ∧ c ≤ 'Z' then Char.ofNat (c.toNat + 32)
  else if Char.ofNat 0x410 ≤ c ∧ c ≤ Char.ofNat 0x42F then Char.ofNat (c.toNat + 0x20)
  else if c = Char.ofNat 0x401 then Char.ofNat 0x451
  else c

/-- Model of Python `str.upper` on a single character (same alphabets). -/
def pyUpper (c : Char) : Char :=
  if 'a' ≤ c ∧ c ≤ 'z' then Char.ofNat (c.toNat - 32)
  else if Char.ofNat 0x430 ≤ c ∧ c ≤ Char.ofNat 0x44F then Char.ofNat (c.toNat - 0x20)
  else if c = Char.ofNat 0x451 then Char.ofNat 0x401
  else c

/-- `str.lower` on a whole string. -/
def lowerStr (s : List Char) : List Char := s.map pyLower

/-- `str.upper` on a whole string. -/
def upperStr (s : List Char) : List Char := s.map pyUpper

/-- The regex class `\d` (ASCII decimal digits). -/
def isDigitCh (c : Char) : Bool := '0' ≤ c && c ≤ '9'

/-- The regex class `\s` (ASCII whitespace: space, tab, newline, carriage
return, vertical tab, form feed). -/
def isWsCh (c : Char) : Bool :=
  c == ' ' || c == '\t' || c == '\n' || c == '\r' || c == Char.ofNat 0x0B || c == Char.ofNat 0x0C

/-- The regex class `[a-f0-9]` of the creator-id pattern. -/
def isHexLower (c : Char) : Bool := isDigitCh c || ('a' ≤ c && c ≤ 'f')

/-- Numeric value of a digit character. -/
def dval (c : Char) : Nat := c.toNat - '0'.toNat

/-- Value of a string of digit characters read in base 10. -/
def digitsToNat (s : List Char) : Nat := s.foldl (fun a c => 10 * a + dval c) 0

/-- `startsTok n h` is true iff `n` is a prefix of `h` (used for Python's
`str.startswith` and as the matching step of substring search). -/
def startsTok : List Char → List Char → Bool
  | [], _ => true
  | _ :: _, [] => false
  | a :: n, b :: h => a == b && startsTok n h

/-- `hasTok hay needle` models Python's substring test `needle in hay`. -/
def hasTok : List Char → List Char → Bool
  | [], n => startsTok n []
  | c :: t, n => startsTok n (c :: t) || hasTok t n

/-- `endsTok hay needle` is true iff `needle` is a suffix of `hay`. -/
def endsTok (hay needle : List Char) : Bool := startsTok needle.reverse hay.reverse

/-- Match a literal token at the current position, returning the rest. -/
def dropTok : List Char → List Char → Option (List Char)
  | [], s => some s
  | _ :: _, [] => none
  | a :: n, b :: s => if a == b then dropTok n s else none

/-- Consume `\s*` (greedy). -/
def ws0 : List Char → List Char
  | [] => []
  | c :: r => if isWsCh c then ws0 r else c :: r

/-- Consume `\s+` (greedy, at least one whitespace character). -/
def ws1 : List Char → Option (List Char)
  | [] => none
  | c :: r => if isWsCh c then some (ws0 r) else none

/-- Maximal run of digit characters together with the rest. -/
def digitsSpan : List Char → List Char × List Char
  | [] => ([], [])
  | c :: r =>
    if isDigitCh c then
      let p := digitsSpan r
      (c :: p.1, p.2)
    else ([], c :: r)

/-- Maximal run of `[\s\d]` characters together with the rest. -/
def wsDigitSpan : List Char → List Char × List Char
  | [] => ([], [])
  | c :: r =>
    if isWsCh c || isDigitCh c then
      let p := wsDigitSpan r
      (c :: p.1, p.2)
    else ([], c :: r)

/-- Exactly `n` characters of the class `[a-f0-9]`. -/
def takeHex : Nat → List Char → Option (List Char × List Char)
  | 0, s => some ([], s)
  | _ + 1, [] => none
  | n + 1, c :: r =>
    if isHexLower c then (takeHex n r).map (fun p => (c :: p.1, p.2)) else none

/-- Python `str.strip` (both ends, whitespace). -/
def pyStrip (s : List Char) : List Char :=
  ((s.dropWhile isWsCh).reverse.dropWhile isWsCh).reverse

/-- `str.replace(" ", "")`. -/
def removeSpaces (s : List Char) : List Char := s.filter (fun c => c != ' ')

/-- Model of Python `re.search`: try the position matcher `f` at every start
position from the left, including the empty suffix at the end. -/
def searchWith {α : Type} (f : List Char → Option α) : List Char → Option α
  | [] => f []
  | c :: r =>
    match f (c :: r) with
    | some a => some a
    | none => searchWith f r

/-- Ordered regex alternation of literal words, each paired with a value.
No listed word is a prefix of another, so first-match is deterministic. -/
def altTok {α : Type} : List (List Char × α) → List Char → Option (α × List Char)
  | [], _ => none
  | (w, v) :: rest, s =>
    match dropTok w s with
    | some r => some (v, r)
    | none => altTok rest s

/-- Dictionary lookup by key (Python `dict.get`). -/
def lookupTok {α : Type} (m : List (List Char × α)) (k : List Char) : Option α :=
  (m.find? (fun p => p.1 == k)).map (·.2)

/-- Decimal representation of a natural number as characters. -/
def natChars (n : Nat) : List Char := (Nat.repr n).toList

/-- Zero-padded two-digit rendering (Python `%02d` format, for the
values ≤ 99 that the program produces here). -/
def pad2 (n : Nat) : List Char := if n < 10 then '0' :: natChars n else natChars n

/-- Zero-padded four-digit rendering (`%Y` for years 1..9999). -/
def pad4 (n : Nat) : List Char :=
  if n < 10 then '0' :: '0' :: '0' :: natChars n
  else if n < 100 then '0' :: '0' :: natChars n
  else if n < 1000 then '0' :: natChars n
  else natChars n

/-- Python `str.zfill(2)` on a digit string. -/
def zfill2 (s : List Char) : List Char :=
  if s.length < 2 then List.replicate (2 - s.length) '0' ++ s else s

/-! ### The lexical scanners of `nlp_processor.py`

Each scanner models one concrete `re.search` pattern of the source.  The
deterministic formulations below are equivalent to the backtracking regex
engine on these patterns because every greedy quantifier is followed either
by a character class disjoint from the quantified class (so giving back
characters cannot help) or by a bounded lookahead that is handled explicitly.
-/

/-- `(\d{1,2})` immediately followed by a literal colon (used twice inside the
time-range pattern).  The greedy two-digit attempt backs off to one digit only
when the second character is the colon itself. -/
def d12colon : List Char → Option (Nat × List Char)
  | a :: b :: r =>
    if isDigitCh a then
      if isDigitCh b then
        match r with
        | ':' :: r2 => some (10 * dval a + dval b, r2)
        | _ => none
      else if b == ':' then some (dval a, r)
      else none
    else none
  | _ => none

/-- `(\d{2})`: exactly two digit characters. -/
def twoDigitNum : List Char → Option (Nat × List Char)
  | a :: b :: r => if isDigitCh a && isDigitCh b then some (10 * dval a + dval b, r) else none
  | _ => none

/-- `(\d{4})`: exactly four digit characters, captured verbatim. -/
def fourDigitChars : List Char → Option (List Char × List Char)
  | a :: b :: c :: e :: r =>
    if isDigitCh a && isDigitCh b && isDigitCh c && isDigitCh e then some ([a, b, c, e], r)
    else none
  | _ => none

/-- `(\d{1,2})` followed (without consuming it) by `\s`: the day of the
single-date pattern.  Two digits are taken only when whitespace follows. -/
def d12ws : List Char → Option (Nat × List Char)
  | a :: b :: r =>
    if isDigitCh a then
      if isDigitCh b then
        match r with
        | c :: _ => if isWsCh c then some (10 * dval a + dval b, r) else none
        | [] => none
      else if isWsCh b then some (dval a, b :: r)
      else none
    else none
  | _ => none

/-- `(\d+)\s+`: a maximal nonempty digit run followed by whitespace, both
consumed; returns the captured digits. -/
def digitsThenWs (s : List Char) : Option (List Char × List Char) :=
  let p := digitsSpan s
  if p.1.isEmpty then none
  else (ws1 p.2).map (fun r => (p.1, r))

/-- Position matcher for `NLPProcessor._parse_time_range`'s pattern
`с\s*(\d{1,2}):(\d{2})\s*(?:до|по)\s*(\d{1,2}):(\d{2})`. -/
def timeAt (s : List Char) : Option (Nat × Nat × Nat × Nat) :=
  match dropTok (tl "с") s with
  | none => none
  | some r1 =>
    match d12colon (ws0 r1) with
    | none => none
    | some (h1, r3) =>
      match twoDigitNum r3 with
      | none => none
      | some (m1, r4) =>
        let r5 := ws0 r4
        match
          (match dropTok (tl "до") r5 with
           | some r => some r
           | none => dropTok (tl "по") r5) with
        | none => none
        | some r6 =>
          match d12colon (ws0 r6) with
          | none => none
          | some (h2, r8) =>
            match twoDigitNum r8 with
            | none => none
            | some (m2, _) => some (h1, m1, h2, m2)

/-- `NLPProcessor._parse_time_range`. -/
def parse_time_range (text : List Char) : Option (Nat × Nat × Nat × Nat) :=
  searchWith timeAt text

/-- `MONTHS_GENITIVE`, in insertion order, mapping each genitive month name to
its two-digit code (this order is also the alternation order of
`MONTHS_PATTERN`). -/
def MONTHS_GENITIVE : List (List Char × List Char) :=
  [(tl "января", tl "01"), (tl "февраля", tl "02"), (tl "марта", tl "03"),
   (tl "апреля", tl "04"), (tl "мая", tl "05"), (tl "июня", tl "06"),
   (tl "июля", tl "07"), (tl "августа", tl "08"), (tl "сентября", tl "09"),
   (tl "октября", tl "10"), (tl "ноября", tl "11"), (tl "декабря", tl "12")]

/-- Position matcher for `NLPProcessor._parse_single_date`'s pattern
`(\d{1,2})\s+(январь|...|декабря)\s+(\d{4})(?:\s+года)?`; the optional
trailing group never affects match success.  Returns day value, month code
and the four year characters. -/
def dateAt (s : List Char) : Option (Nat × List Char × List Char) :=
  match d12ws s with
  | none => none
  | some (day, r1) =>
    match ws1 r1 with
    | none => none
    | some r2 =>
      match altTok MONTHS_GENITIVE r2 with
      | none => none
      | some (code, r3) =>
        match ws1 r3 with
        | none => none
        | some r4 =>
          match fourDigitChars r4 with
          | none => none
          | some (y, _) => some (day, code, y)

/-- `NLPProcessor._parse_single_date`: formats the match as `YYYY-MM-DD`
(day via `int(day)` and `%02d`). -/
def parse_single_date (text : List Char) : Option (List Char) :=
  (searchWith dateAt text).map
    (fun p => p.2.2 ++ tl "-" ++ p.2.1 ++ tl "-" ++ pad2 p.1)

/-- Position matcher for the creator-id pattern `id\s+([a-f0-9]{32})`. -/
def creatorAt (s : List Char) : Option (List Char) :=
  match dropTok (tl "id") s with
  | none => none
  | some r1 =>
    match ws1 r1 with
    | none => none
    | some r2 => (takeHex 32 r2).map (·.1)

/-- The creator-id extraction `re.search(r"id\s+([a-f0-9]{32})", ...)`. -/
def searchCreator (ql : List Char) : Option (List Char) := searchWith creatorAt ql

/-- Position matcher for the threshold pattern
`больше\s+(\d+[\s\d]*)\s+просмотров`.  The greedy group `\d+[\s\d]*` consumes
the maximal space-or-digit run starting with a digit; backtracking hands back
exactly one character, which must be whitespace (consumed then by `\s+`), and
the literal `просмотров` must follow the run, because `просмотров` starts with
a character outside `[\s\d]`.  The captured group is the run minus its last
character. -/
def thrAt (s : List Char) : Option (List Char) :=
  match dropTok (tl "больше") s with
  | none => none
  | some r1 =>
    match ws1 r1 with
    | none => none
    | some r2 =>
      match r2 with
      | c :: _ =>
        if isDigitCh c then
          let p := wsDigitSpan r2
          match p.1.getLast? with
          | some lastc =>
            if isWsCh lastc then
              match dropTok (tl "просмотров") p.2 with
              | some _ => some p.1.dropLast
              | none => none
            else none
          | none => none
        else none
      | [] => none

/-- The view-threshold regex search (shared literal pattern of the
distinct-creators rule, the creator threshold rule and both fallback
duplicates); returns the raw captured group. -/
def searchThreshold (ql : List Char) : Option (List Char) := searchWith thrAt ql

/-- Python `int(group.replace(" ", ""))` on a captured threshold group:
spaces are removed, then `int` strips outer whitespace and requires a nonempty
pure digit string, raising `ValueError` (here `none`) otherwise — which
happens exactly when the captured run contains non-space whitespace between
digits. -/
def pyIntOfGroup (g : List Char) : Option Nat :=
  let s := pyStrip (removeSpaces g)
  if s.isEmpty then none
  else if s.all isDigitCh then some (digitsToNat s) else none

/-- The view-threshold extraction as a whole: regex capture followed by the
space-stripping integer conversion. -/
def extractViewThreshold (ql : List Char) : Option Nat :=
  match searchThreshold ql with
  | some g => pyIntOfGroup g
  | none => none

/-- The prepositional-case month alternation of the month/year patterns
(primary rule line 192 and fallback line 409), in regex order, with the
`month_map` numbers.  The alternation words coincide with the map keys, so the
`dict.get(..., 6)` default is never taken. -/
def monthsPrep : List (List Char × Nat) :=
  [(tl "январе", 1), (tl "феврале", 2), (tl "марте", 3), (tl "апреле", 4),
   (tl "мае", 5), (tl "июне", 6), (tl "июле", 7), (tl "августе", 8),
   (tl "сентябре", 9), (tl "октябре", 10), (tl "ноябре", 11), (tl "декабре", 12)]

/-- Position matcher for the primary month/year pattern
`в\s+(январе|...|декабре)\s+(\d{4})\s+года`. -/
def monthYearAt (s : List Char) : Option (Nat × List Char) :=
  match dropTok (tl "в") s with
  | none => none
  | some r1 =>
    match ws1 r1 with
    | none => none
    | some r2 =>
      match altTok monthsPrep r2 with
      | none => none
      | some (mn, r3) =>
        match ws1 r3 with
        | none => none
        | some r4 =>
          match fourDigitChars r4 with
          | none => none
          | some (y, r5) =>
            match ws1 r5 with
            | none => none
            | some r6 =>
              match dropTok (tl "года") r6 with
              | none => none
              | some _ => some (mn, y)

/-- Position matcher for the fallback month/year pattern, identical except for
the optional trailing `(?:\s+года)?`, which never affects match success. -/
def fbMonthYearAt (s : List Char) : Option (Nat × List Char) :=
  match dropTok (tl "в") s with
  | none => none
  | some r1 =>
    match ws1 r1 with
    | none => none
    | some r2 =>
      match altTok monthsPrep r2 with
      | none => none
      | some (mn, r3) =>
        match ws1 r3 with
        | none => none
        | some r4 =>
          match fourDigitChars r4 with
          | none => none
          | some (y, _) => some (mn, y)

/-- The any-case month alternation of the calendar-days rule
`(январ[ьяе]|феврал[ьяе]|март[ае]?|апрел[ьяе]|ма[яе]|июн[ьяе]|июл[ьяе]|август[ае]?|сентябр[ьяе]|октябр[ьяе]|ноябр[ьяе]|декабр[ьяе])`
as (stem, suffix class, suffix optional) triples in regex order. -/
def monthsAnyAlts : List (List Char × List Char × Bool) :=
  [(tl "январ", tl "ьяе", false), (tl "феврал", tl "ьяе", false),
   (tl "март", tl "ае", true), (tl "апрел", tl "ьяе", false),
   (tl "ма", tl "яе", false), (tl "июн", tl "ьяе", false),
   (tl "июл", tl "ьяе", false), (tl "август", tl "ае", true),
   (tl "сентябр", tl "ьяе", false), (tl "октябр", tl "ьяе", false),
   (tl "ноябр", tl "ьяе", false), (tl "декабр", tl "ьяе", false)]

/-- Candidate captures for one any-case alternative, in greedy order: with the
class suffix first, then (if the suffix is optional) the bare stem. -/
def stemCandidates (stem cls : List Char) (opt : Bool) (s : List Char) :
    List (List Char × List Char) :=
  match dropTok stem s with
  | none => []
  | some r =>
    (match r with
     | c :: r2 =>
       if cls.contains c then ((stem ++ [c], r2) :: if opt then [(stem, r)] else [])
       else (if opt then [(stem, r)] else [])
     | [] => if opt then [(stem, r)] else [])

/-- Continuation `\s+(\d{4})` after the captured month word. -/
def monAnyCont (s : List Char) : Option (List Char) :=
  match ws1 s with
  | none => none
  | some r => (fourDigitChars r).map (·.1)

/-- First candidate whose continuation matches, with the year it captured. -/
def tryCands : List (List Char × List Char) → Option (List Char × List Char)
  | [] => none
  | (w, r) :: rest =>
    match monAnyCont r with
    | some y => some (w, y)
    | none => tryCands rest

/-- Position matcher for `month_year_pattern_any` + `\s+(\d{4})`: try the
alternatives in regex order, with greedy backtracking inside each. -/
def monthAnyAtGo : List (List Char × List Char × Bool) → List Char →
    Option (List Char × List Char)
  | [], _ => none
  | (stem, cls, opt) :: rest, s =>
    match tryCands (stemCandidates stem cls opt s) with
    | some wy => some wy
    | none => monthAnyAtGo rest s

/-- `month_map_any` of the calendar-days rule (genitive and prepositional
forms only; the soft-sign forms matched by the regex are absent, so they fall
through). -/
def monthMapAny : List (List Char × Nat) :=
  [(tl "января", 1), (tl "январе", 1), (tl "февраля", 2), (tl "феврале", 2),
   (tl "марта", 3), (tl "марте", 3), (tl "апреля", 4), (tl "апреле", 4),
   (tl "мая", 5), (tl "мае", 5), (tl "июня", 6), (tl "июне", 6),
   (tl "июля", 7), (tl "июле", 7), (tl "августа", 8), (tl "августе", 8),
   (tl "сентября", 9), (tl "сентябре", 9), (tl "октября", 10), (tl "октябре", 10),
   (tl "ноября", 11), (tl "ноябре", 11), (tl "декабря", 12), (tl "декабре", 12)]

/-- The genitive month alternation written literally in the date-range pattern
(lines 288 and 377), in its regex order — `ноября` listed twice — mapped
through the date-range `month_map` (all words are keys, so the `.get`
default `'11'` is never taken). -/
def monthsRange : List (List Char × List Char) :=
  [(tl "ноября", tl "11"), (tl "ноября", tl "11"), (tl "декабря", tl "12"),
   (tl "января", tl "01"), (tl "февраля", tl "02"), (tl "марта", tl "03"),
   (tl "апреля", tl "04"), (tl "мая", tl "05"), (tl "июня", tl "06"),
   (tl "июля", tl "07"), (tl "августа", tl "08"), (tl "сентября", tl "09"),
   (tl "октября", tl "10")]

/-- Position matcher for the date-range pattern
`с\s+(\d+)\s+(месяц)\s+(\d{4})\s+по\s+(\d+)\s+(месяц)\s+(\d{4})`, returning
the captured day digits, month codes and year digits. -/
def dateRangeAt (s : List Char) :
    Option (List Char × List Char × List Char × List Char × List Char × List Char) :=
  match dropTok (tl "с") s with
  | none => none
  | some r1 =>
    match ws1 r1 with
    | none => none
    | some r2 =>
      match digitsThenWs r2 with
      | none => none
      | some (d1, r3) =>
        match altTok monthsRange r3 with
        | none => none
        | some (mc1, r4) =>
          match ws1 r4 with
          | none => none
          | some r5 =>
            match fourDigitChars r5 with
            | none => none
            | some (y1, r6) =>
              match ws1 r6 with
              | none => none
              | some r7 =>
                match dropTok (tl "по") r7 with
                | none => none
                | some r8 =>
                  match ws1 r8 with
                  | none => none
                  | some r9 =>
                    match digitsThenWs r9 with
                    | none => none
                    | some (d2, r10) =>
                      match altTok monthsRange r10 with
                      | none => none
                      | some (mc2, r11) =>
                        match ws1 r11 with
                        | none => none
                        | some r12 =>
                          match fourDigitChars r12 with
                          | none => none
                          | some (y2, _) => some (d1, mc1, y1, d2, mc2, y2)

/-- The date-range regex search shared by the primary creator branch and the
fallback creator branch (the same pattern literal appears at both sites). -/
def searchDateRange (ql : List Char) :
    Option (List Char × List Char × List Char × List Char × List Char × List Char) :=
  searchWith dateRangeAt ql

/-! ### The datetime model for `_build_datetime_range`

`datetime.strptime(date_str, "%Y-%m-%d")` validates its input: `%Y` requires
exactly four digits, `%m`/`%d` one or two digits, the year must be at least 1
and the day at most the length of the (leap-aware) month, otherwise
`ValueError` is raised.  `datetime.replace` likewise raises on an hour above
23 or a minute above 59.  A raise is modelled as `Except.error ()`. -/

/-- A naive Python `datetime` with second fixed to 0, as built by
`_build_datetime_range`. -/
structure PyDT where
  y : Nat
  m : Nat
  d : Nat
  hh : Nat
  mi : Nat

/-- Gregorian leap year as implemented by Python's `datetime`. -/
def isLeapYear (y : Nat) : Bool := (y % 4 == 0 && y % 100 != 0) || y % 400 == 0

/-- Days in a month of a given year. -/
def daysInMonth (y m : Nat) : Nat :=
  if m == 2 then (if isLeapYear y then 29 else 28)
  else if m == 4 || m == 6 || m == 9 || m == 11 then 30
  else 31

/-- Split a character list at the literal dashes. -/
def splitDash : List Char → List (List Char)
  | [] => [[]]
  | c :: r =>
    if c = '-' then [] :: splitDash r
    else
      match splitDash r with
      | [] => [[c]]
      | g :: gs => (c :: g) :: gs

/-- `datetime.strptime(s, "%Y-%m-%d")` followed by validity: four year
digits, one or two month and day digits, year ≥ 1, month in 1..12, day in
1..daysInMonth. -/
def parseIsoDate (s : List Char) : Option (Nat × Nat × Nat) :=
  match splitDash s with
  | [ys, ms, ds] =>
    if ys.length == 4 && ys.all isDigitCh &&
       (ms.length == 1 || ms.length == 2) && ms.all isDigitCh &&
       (ds.length == 1 || ds.length == 2) && ds.all isDigitCh then
      if 1 ≤ digitsToNat ys ∧ 1 ≤ digitsToNat ms ∧ digitsToNat ms ≤ 12 ∧
         1 ≤ digitsToNat ds ∧ digitsToNat ds ≤ daysInMonth (digitsToNat ys) (digitsToNat ms) then
        some (digitsToNat ys, digitsToNat ms, digitsToNat ds)
      else none
    else none
  | _ => none

/-- An order-preserving key on the datetimes handled here (`m ≤ 12`,
`d ≤ 31`, `hh ≤ 23`, `mi ≤ 59`): chronological order coincides with order of
this key, and the `end_dt <= start_dt` comparison of the source — Python
`datetime` order — is this key order (both datetimes compared share their
date components). -/
def dtKey (t : PyDT) : Nat :=
  ((t.y * 13 + t.m) * 32 + t.d) * 1440 + t.hh * 60 + t.mi

/-- `dt + timedelta(days=1)` on a valid datetime. -/
def nextDay (t : PyDT) : PyDT :=
  if t.d < daysInMonth t.y t.m then ⟨t.y, t.m, t.d + 1, t.hh, t.mi⟩
  else if t.m < 12 then ⟨t.y, t.m + 1, 1, t.hh, t.mi⟩
  else ⟨t.y + 1, 1, 1, t.hh, t.mi⟩

/-- `NLPProcessor._build_datetime_range` up to (but not including) the final
`strftime`: parse and validate the date, install the two times-of-day
(validated by `datetime.replace`), and shift the end forward one day when
`end_dt <= start_dt`. -/
def build_datetime_rangeDT (ds : List Char) (tr : Nat × Nat × Nat × Nat) :
    Except Unit (PyDT × PyDT) :=
  match parseIsoDate ds with
  | none => .error ()
  | some (y, m, d) =>
    match tr with
    | (h1, m1, h2, m2) =>
      if h1 ≤ 23 ∧ m1 ≤ 59 ∧ h2 ≤ 23 ∧ m2 ≤ 59 then
        let sdt : PyDT := ⟨y, m, d, h1, m1⟩
        let edt : PyDT := ⟨y, m, d, h2, m2⟩
        .ok (sdt, if dtKey edt ≤ dtKey sdt then nextDay edt else edt)
      else .error ()

/-- `strftime("%Y-%m-%d %H:%M:%S+00:00")` with second 0. -/
def fmtDt (t : PyDT) : List Char :=
  (pad4 t.y ++ tl "-" ++ pad2 t.m ++ tl "-" ++ pad2 t.d ++ tl " " ++
   pad2 t.hh ++ tl ":" ++ pad2 t.mi ++ tl ":00") ++ tl "+00:00"

/-- `NLPProcessor._build_datetime_range`: the datetime pair formatted as
fixed-offset UTC strings. -/
def build_datetime_range (ds : List Char) (tr : Nat × Nat × Nat × Nat) :
    Except Unit (List Char × List Char) :=
  match build_datetime_rangeDT ds tr with
  | .error u => .error u
  | .ok (a, b) => .ok (fmtDt a, fmtDt b)

/-! ### Metric keyword detection -/

/-- `METRIC_KEYWORDS`, in insertion (iteration) order. -/
def METRIC_KEYWORDS : List (List Char × List Char) :=
  [(tl "просмотр", tl "delta_views_count"), (tl "лайк", tl "delta_likes_count"),
   (tl "комментар", tl "delta_comments_count"), (tl "жалоб", tl "delta_reports_count"),
   (tl "репорт", tl "delta_reports_count")]

/-- `NLPProcessor._detect_metric_column`: first matching stem of
`METRIC_KEYWORDS` wins; then the explicit suffix checks; else the default. -/
def detect_metric_column (text dflt : List Char) : List Char :=
  match METRIC_KEYWORDS.find? (fun p => hasTok text p.1) with
  | some p => p.2
  | none =>
    if hasTok text (tl "лайков") then tl "delta_likes_count"
    else if hasTok text (tl "комментар") then tl "delta_comments_count"
    else if hasTok text (tl "жалоб") || hasTok text (tl "репорт") then tl "delta_reports_count"
    else dflt

/-! ### SQL templates (f-strings of the source, apostrophes via `apos`) -/

/-- Month/year SUM template. -/
def sumMonthTemplate (y : List Char) (mn : Nat) : List Char :=
  tl "SELECT SUM(views_count) FROM videos WHERE EXTRACT(YEAR FROM video_created_at) = " ++
  y ++ tl " AND EXTRACT(MONTH FROM video_created_at) = " ++ natChars mn

/-- Month/year COUNT template. -/
def countMonthTemplate (y : List Char) (mn : Nat) : List Char :=
  tl "SELECT COUNT(*) FROM videos WHERE EXTRACT(YEAR FROM video_created_at) = " ++
  y ++ tl " AND EXTRACT(MONTH FROM video_created_at) = " ++ natChars mn

/-- Distinct-creators threshold template. -/
def distinctTemplate (n : Nat) : List Char :=
  tl "SELECT COUNT(DISTINCT creator_id) FROM videos WHERE views_count > " ++ natChars n

/-- Calendar-days-in-month template. -/
def calendarTemplate (cid y : List Char) (mn : Nat) : List Char :=
  tl "SELECT COUNT(DISTINCT DATE(video_created_at)) FROM videos WHERE creator_id = " ++
  [apos] ++ cid ++ [apos] ++ tl " AND EXTRACT(YEAR FROM video_created_at) = " ++ y ++
  tl " AND EXTRACT(MONTH FROM video_created_at) = " ++ natChars mn

/-- Creator time-window delta template (half-open interval `>=` start,
`<` end). -/
def timeWindowTemplate (cid col si ei : List Char) : List Char :=
  tl "SELECT COALESCE(SUM(vs." ++ col ++
  tl "), 0) FROM video_snapshots vs JOIN videos v ON v.id = vs.video_id WHERE v.creator_id = " ++
  [apos] ++ cid ++ [apos] ++ tl " AND vs.created_at >= " ++ [apos] ++ si ++ [apos] ++
  tl " AND vs.created_at < " ++ [apos] ++ ei ++ [apos]

/-- Creator date-range template (inclusive `>=` start, `<=` end; the end
argument already carries the appended ` 23:59:59`). -/
def dateRangeTemplate (cid sd edFull : List Char) : List Char :=
  tl "SELECT COUNT(*) FROM videos WHERE creator_id = " ++ [apos] ++ cid ++ [apos] ++
  tl " AND video_created_at >= " ++ [apos] ++ sd ++ [apos] ++
  tl " AND video_created_at <= " ++ [apos] ++ edFull ++ [apos]

/-- Creator views-threshold template. -/
def thresholdTemplate (cid : List Char) (n : Nat) : List Char :=
  tl "SELECT COUNT(*) FROM videos WHERE creator_id = " ++ [apos] ++ cid ++ [apos] ++
  tl " AND views_count > " ++ natChars n

/-- Plain creator video-count template. -/
def plainCountTemplate (cid : List Char) : List Char :=
  tl "SELECT COUNT(*) FROM videos WHERE creator_id = " ++ [apos] ++ cid ++ [apos]

/-! ### The rule matchers of `generate_sql_query` -/

/-- The `test_queries` exact-lookup table, in insertion order. -/
def testQueries : List (List Char × List Char) :=
  [(tl "Сколько всего видео есть в системе?",
    tl "SELECT COUNT(*) FROM videos"),
   (tl "Сколько видео набрало больше 100 000 просмотров?",
    tl "SELECT COUNT(*) FROM videos WHERE views_count > 100000"),
   (tl "На сколько просмотров в сумме выросли все видео 28 ноября 2025?",
    tl "SELECT SUM(delta_views_count) FROM video_snapshots WHERE DATE(created_at) = " ++
      [apos] ++ tl "2025-11-28" ++ [apos]),
   (tl "Сколько разных видео получали новые просмотры 27 ноября 2025?",
    tl "SELECT COUNT(DISTINCT video_id) FROM video_snapshots WHERE DATE(created_at) = " ++
      [apos] ++ tl "2025-11-27" ++ [apos] ++ tl " AND delta_views_count > 0")]

/-- The exact-lookup stage: first table entry whose lowercased canonical
question occurs in the lowercased user text. -/
def exactLookup (ql : List Char) : Option (List Char) :=
  (testQueries.find? (fun p => hasTok ql (lowerStr p.1))).map (·.2)

/-- The negative-delta snapshot rule (lines 184-189). -/
def negativeDeltaRule (ql : List Char) : Option (List Char) :=
  if (hasTok ql (tl "отрицательным") || hasTok ql (tl "отрицательное")) &&
     (hasTok ql (tl "замер") || hasTok ql (tl "снапшот") || hasTok ql (tl "статистик")) then
    if hasTok ql (tl "delta_views_count") || hasTok ql (tl "просмотров") then
      some (tl "SELECT COUNT(*) FROM video_snapshots WHERE delta_views_count < 0")
    else none
  else none

/-- The sum-word test `"суммарное" in ql or "сумма" in ql or "сумму" in ql`. -/
def sumWords (ql : List Char) : Bool :=
  hasTok ql (tl "суммарное") || hasTok ql (tl "сумма") || hasTok ql (tl "сумму")

/-- The primary month/year aggregate rule (lines 191-214): on a match, a SUM
on sum-words, else a COUNT on `сколько`, else fall-through. -/
def monthYearRule (ql : List Char) : Option (List Char) :=
  match searchWith monthYearAt ql with
  | none => none
  | some (mn, y) =>
    if sumWords ql then some (sumMonthTemplate y mn)
    else if hasTok ql (tl "сколько") then some (countMonthTemplate y mn)
    else none

/-- The distinct-creators-over-threshold rule (lines 216-227, duplicated
verbatim at fallback lines 434-443).  `int()` on a captured group containing
non-space whitespace raises, modelled by `Except.error`. -/
def distinctCreatorsRule (ql : List Char) : Except Unit (Option (List Char)) :=
  if hasTok ql (tl "креатор") && hasTok ql (tl "разных") && hasTok ql (tl "просмотр") then
    match searchThreshold ql with
    | some g =>
      match pyIntOfGroup g with
      | some n => .ok (some (distinctTemplate n))
      | none => .error ()
    | none => .ok (some (distinctTemplate 100000))
  else .ok none

/-- The creator calendar-days-in-month sub-rule (lines 238-268); an
unrecognized month word (`month_map_any.get` returning `None`) falls
through. -/
def calendarDaysRule (ql cid : List Char) : Option (List Char) :=
  if hasTok ql (tl "календар") &&
     (hasTok ql (tl "дня") || hasTok ql (tl "дней") || hasTok ql (tl "днях")) then
    match searchWith (monthAnyAtGo monthsAnyAlts) ql with
    | some (w, y) =>
      match lookupTok monthMapAny w with
      | some mn => some (calendarTemplate cid y mn)
      | none => none
    | none => none
  else none

/-- The tail of the primary creator branch (lines 287-324): date range, then
threshold (whose `int()` can raise), then plain count. -/
def restCreator (ql cid : List Char) : Except Unit (List Char) :=
  match searchDateRange ql with
  | some (d1, mc1, y1, d2, mc2, y2) =>
    .ok (dateRangeTemplate cid (y1 ++ tl "-" ++ mc1 ++ tl "-" ++ zfill2 d1)
          (y2 ++ tl "-" ++ mc2 ++ tl "-" ++ zfill2 d2 ++ tl " 23:59:59"))
  | none =>
    match searchThreshold ql with
    | some g =>
      match pyIntOfGroup g with
      | some n => .ok (thresholdTemplate cid n)
      | none => .error ()
    | none => .ok (plainCountTemplate cid)

/-- The guard of the creator time-window sub-rule:
`"просмотр" in ql or "delta" in ql or "прирост" in ql`. -/
def viewsDeltaGuard (ql : List Char) : Bool :=
  hasTok ql (tl "просмотр") || hasTok ql (tl "delta") || hasTok ql (tl "прирост")

/-- The whole primary creator branch (lines 233-324): calendar days, then the
time-window delta sub-rule, then `restCreator`.  Always produces SQL or
raises. -/
def creatorBranch (ql cid : List Char) : Except Unit (List Char) :=
  match calendarDaysRule ql cid with
  | some s => .ok s
  | none =>
    match parse_single_date ql, parse_time_range ql with
    | some ds, some tr =>
      if viewsDeltaGuard ql then
        match build_datetime_range ds tr with
        | .error u => .error u
        | .ok (si, ei) =>
          .ok (timeWindowTemplate cid (detect_metric_column ql (tl "delta_views_count")) si ei)
      else restCreator ql cid
    | _, _ => restCreator ql cid

/-- The creator branch of `_get_fallback_sql` (lines 373-406): date range,
then threshold, then plain count — the same templates written out a second
time in the source. -/
def fallbackCreator (ql cid : List Char) : Except Unit (List Char) :=
  match searchDateRange ql with
  | some (d1, mc1, y1, d2, mc2, y2) =>
    .ok (dateRangeTemplate cid (y1 ++ tl "-" ++ mc1 ++ tl "-" ++ zfill2 d1)
          (y2 ++ tl "-" ++ mc2 ++ tl "-" ++ zfill2 d2 ++ tl " 23:59:59"))
  | none =>
    match searchThreshold ql with
    | some g =>
      match pyIntOfGroup g with
      | some n => .ok (thresholdTemplate cid n)
      | none => .error ()
    | none => .ok (plainCountTemplate cid)

/-- Fallback month/year rule (lines 408-427): optional `года`, same SUM/COUNT
keyword choice, fall-through when neither keyword is present. -/
def fbMonthYearRule (ql : List Char) : Option (List Char) :=
  match searchWith fbMonthYearAt ql with
  | none => none
  | some (mn, y) =>
    if sumWords ql then some (sumMonthTemplate y mn)
    else if hasTok ql (tl "сколько") then some (countMonthTemplate y mn)
    else none

/-- Fallback negative-delta rule (lines 429-432): like the primary one but
the inner check is `"просмотров"` only. -/
def fbNegativeRule (ql : List Char) : Option (List Char) :=
  if (hasTok ql (tl "отрицательным") || hasTok ql (tl "отрицательное")) &&
     (hasTok ql (tl "замер") || hasTok ql (tl "снапшот") || hasTok ql (tl "статистик")) then
    if hasTok ql (tl "просмотров") then
      some (tl "SELECT COUNT(*) FROM video_snapshots WHERE delta_views_count < 0")
    else none
  else none

/-- Fallback general keyword patterns (lines 445-453). -/
def fbGeneral (ql : List Char) : Option (List Char) :=
  if hasTok ql (tl "сколько всего видео") || hasTok ql (tl "total videos") then
    some (tl "SELECT COUNT(*) FROM videos")
  else if hasTok ql (tl "больше 100") && hasTok ql (tl "просмотров") then
    some (tl "SELECT COUNT(*) FROM videos WHERE views_count > 100000")
  else if hasTok ql (tl "выросли") && hasTok ql (tl "28 ноября") then
    some (tl "SELECT SUM(delta_views_count) FROM video_snapshots WHERE DATE(created_at) = " ++
      [apos] ++ tl "2025-11-28" ++ [apos])
  else if hasTok ql (tl "новые просмотры") && hasTok ql (tl "27 ноября") then
    some (tl "SELECT COUNT(DISTINCT video_id) FROM video_snapshots WHERE DATE(created_at) = " ++
      [apos] ++ tl "2025-11-27" ++ [apos] ++ tl " AND delta_views_count > 0")
  else none

/-- Year-only SUM template of the fallback sum section. -/
def sumYearTemplate (y : List Char) : List Char :=
  tl "SELECT SUM(views_count) FROM videos WHERE EXTRACT(YEAR FROM video_created_at) = " ++ y

/-- Fallback general sum-of-views section (lines 455-481): bare month-word
search, bare `(\d{4})` year search, `"2025"` substring check. -/
def fbSumSection (ql : List Char) : Option (List Char) :=
  if sumWords ql && hasTok ql (tl "просмотров") then
    if hasTok ql (tl "2025") then
      match searchWith (altTok monthsPrep) ql with
      | some (mn, _) =>
        match searchWith (fun s => (fourDigitChars s).map (·.1)) ql with
        | some y => some (sumMonthTemplate y mn)
        | none => some (sumMonthTemplate (tl "2025") mn)
      | none =>
        match searchWith (fun s => (fourDigitChars s).map (·.1)) ql with
        | some y => some (sumYearTemplate y)
        | none => none
    else some (tl "SELECT SUM(views_count) FROM videos")
  else none

/-- `NLPProcessor._get_fallback_sql`: creator branch first, then month/year,
negative delta, distinct creators, general patterns, sum section, else
`None`. -/
def get_fallback_sql (q : List Char) : Except Unit (Option (List Char)) :=
  match searchCreator (lowerStr q) with
  | some cid =>
    match fallbackCreator (lowerStr q) cid with
    | .error u => .error u
    | .ok s => .ok (some s)
  | none =>
    match fbMonthYearRule (lowerStr q) with
    | some s => .ok (some s)
    | none =>
      match fbNegativeRule (lowerStr q) with
      | some s => .ok (some s)
      | none =>
        match distinctCreatorsRule (lowerStr q) with
        | .error u => .error u
        | .ok (some s) => .ok (some s)
        | .ok none =>
          match fbGeneral (lowerStr q) with
          | some s => .ok (some s)
          | none =>
            match fbSumSection (lowerStr q) with
            | some s => .ok (some s)
            | none => .ok none

/-! ### The LLM boundary

The completion call and the `json.loads` of its content form an external
boundary.  `LLMOutcome` records exactly the case analysis the source performs
on it: the client being `None` (line 327); the transport call (or any step
before the inner `try`) raising — caught by the outer `except`, which invokes
the fallback; the content failing `json.loads` — `JSONDecodeError`, caught by
the inner `except`, which returns `None`; a decoded non-dict — `.get` raises
`AttributeError`, reaching the outer `except` and hence the fallback; a dict
without `"sql"` — `get` yields `""`, which fails the truthiness check and
returns `None`; a non-string `"sql"` value — `.strip()` raises
`AttributeError`, reaching the outer `except`; and a string `"sql"` value,
which is stripped and checked to start (case-insensitively) with `SELECT`. -/
inductive LLMOutcome where
  | noClient
  | transportRaise
  | respNotJson
  | respJsonNonDict
  | respJsonNoSql
  | respJsonSqlNonString
  | respJsonSql (s : List Char)

/-- The LLM stage of `generate_sql_query` (lines 326-362). -/
def llmStage (llm : LLMOutcome) (q : List Char) : Except Unit (Option (List Char)) :=
  match llm with
  | .noClient => get_fallback_sql q
  | .transportRaise => get_fallback_sql q
  | .respNotJson => .ok none
  | .respJsonNonDict => get_fallback_sql q
  | .respJsonNoSql => .ok none
  | .respJsonSqlNonString => get_fallback_sql q
  | .respJsonSql s =>
    let sql := pyStrip s
    if !sql.isEmpty && startsTok (tl "SELECT") (upperStr sql) then .ok (some sql)
    else .ok none

/-- `NLPProcessor.generate_sql_query`: exact lookup, negative-delta rule,
month/year rule, distinct-creators rule, creator branch, then the LLM stage
with its rule fallback.  `.error ()` models an uncaught Python exception,
`.ok none` models returning `None`. -/
def generate_sql_query (llm : LLMOutcome) (q : List Char) :
    Except Unit (Option (List Char)) :=
  match exactLookup (lowerStr q) with
  | some s => .ok (some s)
  | none =>
    match negativeDeltaRule (lowerStr q) with
    | some s => .ok (some s)
    | none =>
      match monthYearRule (lowerStr q) with
      | some s => .ok (some s)
      | none =>
        match distinctCreatorsRule (lowerStr q) with
        | .error u => .error u
        | .ok (some s) => .ok (some s)
        | .ok none =>
          match searchCreator (lowerStr q) with
          | some cid =>
            match creatorBranch (lowerStr q) cid with
            | .error u => .error u
            | .ok s => .ok (some s)
          | none => llmStage llm q

/-! ### The result executor -/

/-- A value read from the first column of a fetched row. -/
inductive PyValue where
  | pInt (i : Int)
  | pFloat (q : Rat)
  | pOther

/-- Outcome of the database cursor boundary inside
`execute_query_and_get_result`: the execute/fetch raising, or `fetchone`
returning `None` or a row of values. -/
inductive DbOutcome where
  | raised
  | fetched (row : Option (List PyValue))

/-- Python `int()` on a float value: truncation toward zero (every binary
float is an exact rational). -/
def truncRat (x : Rat) : Int :=
  if x.num < 0 then -((x.num.natAbs / x.den : Nat) : Int) else ((x.num.natAbs / x.den : Nat) : Int)

/-- `NLPProcessor.execute_query_and_get_result`: any raise gives `None`; a
missing or empty (falsy) row gives `None`; an `int`/`float` first value is
returned as `int`; anything else gives `None`. -/
def execute_query_and_get_result (db : DbOutcome) : Option Int :=
  match db with
  | .raised => none
  | .fetched none => none
  | .fetched (some []) => none
  | .fetched (some (v :: _)) =>
    match v with
    | .pInt i => some i
    | .pFloat x => some (truncRat x)
    | .pOther => none

/-- The firing condition of the creator time-window sub-rule: a parsed single
date, a parsed time range, and the views/delta/growth guard. -/
def timeWindowFires (ql : List Char) : Bool :=
  (parse_single_date ql).isSome && (parse_time_range ql).isSome && viewsDeltaGuard ql

/-- Condition under which the time-window sub-rule's datetime construction
raises: both parsers match but the parsed values are rejected by
`strptime`/`replace` (out-of-range day, hour or minute). -/
def timeWindowRaise (ql : List Char) : Bool :=
  match parse_single_date ql, parse_time_range ql with
  | some ds, some tr =>
    (match build_datetime_rangeDT ds tr with
     | .error _ => true
     | .ok _ => false)
  | _, _ => false

/-- Condition under which a threshold `int()` conversion raises: the
threshold regex matches but the captured group contains non-space whitespace
inside the digit run. -/
def thresholdRaise (ql : List Char) : Bool :=
  match searchThreshold ql with
  | some g => (pyIntOfGroup g).isNone
  | none => false

/-! ### Helper lemmas -/

/-- Prefix matching is transitive. -/
theorem startsTok_trans : ∀ (a b c : List Char),
    startsTok a b = true → startsTok b c = true → startsTok a c = true
  | [], _, _, _, _ => rfl
  | _ :: _, [], _, h1, _ => by simp [startsTok] at h1
  | _ :: _, _ :: _, [], _, h2 => by simp [startsTok] at h2
  | x :: a, y :: b, z :: c, h1, h2 => by
    simp only [startsTok, Bool.and_eq_true, beq_iff_eq] at h1 h2 ⊢
    exact ⟨h1.1.trans h2.1, startsTok_trans a b c h1.2 h2.2⟩

/-- If `a` is a prefix of `b`, any text containing `b` contains `a`. -/
theorem hasTok_mono : ∀ (t a b : List Char),
    startsTok a b = true → hasTok t b = true → hasTok t a = true
  | [], a, b, hp, ht => by
    cases b with
    | nil => cases a with
      | nil => rfl
      | cons x a => simp [startsTok] at hp
    | cons y b => simp [hasTok, startsTok] at ht
  | c :: t, a, b, hp, ht => by
    simp only [hasTok, Bool.or_eq_true] at ht ⊢
    cases ht with
    | inl h => exact Or.inl (startsTok_trans a b (c :: t) hp h)
    | inr h => exact Or.inr (hasTok_mono t a b hp h)

/-- A list is a prefix of itself followed by anything. -/
theorem startsTok_self_append : ∀ (l s : List Char), startsTok l (l ++ s) = true
  | [], _ => rfl
  | c :: l, s => by simp [startsTok, startsTok_self_append l s]

/-- Appending a suffix makes it a suffix. -/
theorem endsTok_append (s t : List Char) : endsTok (s ++ t) t = true := by
  unfold endsTok
  rw [List.reverse_append]
  exact startsTok_self_append t.reverse s.reverse

/-- Every month has at most 31 days. -/
theorem daysInMonth_le31 (y m : Nat) : daysInMonth y m ≤ 31 := by
  unfold daysInMonth
  split
  · split <;> omega
  · split <;> omega

/-- `parseIsoDate` only returns months in 1..12 and days in 1..daysInMonth. -/
theorem parseIsoDate_bounds (s : List Char) (y m d : Nat)
    (h : parseIsoDate s = some (y, m, d)) :
    1 ≤ m ∧ m ≤ 12 ∧ 1 ≤ d ∧ d ≤ daysInMonth y m := by
  unfold parseIsoDate at h
  split at h
  · split at h
    · split at h
      · rename_i hcond
        simp only [Option.some.injEq, Prod.mk.injEq] at h
        obtain ⟨hy, hm, hd⟩ := h
        subst hy hm hd
        exact ⟨hcond.2.1, hcond.2.2.1, hcond.2.2.2.1, hcond.2.2.2.2⟩
      · exact absurd h (by simp)
    · exact absurd h (by simp)
  · exact absurd h (by simp)

/-! ### Claim theorems -/

/-- C9: `execute_query_and_get_result` returns the first column of the first
fetched row as an integer exactly when that value is an int or a float
(floats truncated toward zero by `int()`); an execution error, an empty
result set, or a non-numeric first value gives `None`, never a propagated
exception. -/
theorem exec_result_contract :
    execute_query_and_get_result .raised = none ∧
    execute_query_and_get_result (.fetched none) = none ∧
    execute_query_and_get_result (.fetched (some [])) = none ∧
    (∀ (i : Int) (r : List PyValue),
      execute_query_and_get_result (.fetched (some (.pInt i :: r))) = some i) ∧
    (∀ (x : Rat) (r : List PyValue),
      execute_query_and_get_result (.fetched (some (.pFloat x :: r))) = some (truncRat x)) ∧
    (∀ (r : List PyValue),
      execute_query_and_get_result (.fetched (some (.pOther :: r))) = none) :=
  ⟨rfl, rfl, rfl, fun _ _ => rfl, fun _ _ => rfl, fun _ => rfl⟩

/-- C6: when the lowercased text contains a canonical question of the
exact-lookup table (`pr` being the first matching table entry),
`generate_sql_query` returns exactly its precomputed SQL, regardless of the
LLM outcome — the lookup short-circuits every later parser, rule and the LLM
call. -/
theorem exact_lookup_short_circuits (q : List Char) (pr : List Char × List Char)
    (llm : LLMOutcome)
    (h : testQueries.find? (fun p => hasTok (lowerStr q) (lowerStr p.1)) = some pr) :
    generate_sql_query llm q = .ok (some pr.2) := by
  unfold generate_sql_query exactLookup
  rw [h]
  rfl

/-- Witness for C6 at the first canonical question. -/
theorem exact_lookup_short_circuits_w :
    generate_sql_query .respNotJson (tl "Сколько всего видео есть в системе?") =
      .ok (some (tl "SELECT COUNT(*) FROM videos")) :=
  exact_lookup_short_circuits (tl "Сколько всего видео есть в системе?")
    (tl "Сколько всего видео есть в системе?", tl "SELECT COUNT(*) FROM videos")
    .respNotJson rfl

/-- C8: `_detect_metric_column` scans the `METRIC_KEYWORDS` stems in their
fixed priority order (просмотр, лайк, комментар, жалоб, репорт), the first
stem contained in the text winning; when no stem matches, the suffix checks
cannot fire either (each suffix contains a stem), so the given default is
returned; and the spec's example text yields the likes column. -/
theorem detect_metric_priority (t d : List Char) :
    (hasTok t (tl "просмотр") = true → detect_metric_column t d = tl "delta_views_count") ∧
    (hasTok t (tl "просмотр") = false → hasTok t (tl "лайк") = true →
      detect_metric_column t d = tl "delta_likes_count") ∧
    (hasTok t (tl "просмотр") = false → hasTok t (tl "лайк") = false →
      hasTok t (tl "комментар") = true → detect_metric_column t d = tl "delta_comments_count") ∧
    (hasTok t (tl "просмотр") = false → hasTok t (tl "лайк") = false →
      hasTok t (tl "комментар") = false →
      (hasTok t (tl "жалоб") = true ∨ hasTok t (tl "репорт") = true) →
      detect_metric_column t d = tl "delta_reports_count") ∧
    (hasTok t (tl "просмотр") = false → hasTok t (tl "лайк") = false →
      hasTok t (tl "комментар") = false → hasTok t (tl "жалоб") = false →
      hasTok t (tl "репорт") = false → detect_metric_column t d = d) ∧
    detect_metric_column (tl "сколько лайков получили") d = tl "delta_likes_count" := by
  refine ⟨?_, ?_, ?_, ?_, ?_, ?_⟩
  · intro h1
    simp [detect_metric_column, METRIC_KEYWORDS, List.find?, h1]
  · intro h1 h2
    simp [detect_metric_column, METRIC_KEYWORDS, List.find?, h1, h2]
  · intro h1 h2 h3
    simp [detect_metric_column, METRIC_KEYWORDS, List.find?, h1, h2, h3]
  · intro h1 h2 h3 h4
    cases h4 with
    | inl h => simp [detect_metric_column, METRIC_KEYWORDS, List.find?, h1, h2, h3, h]
    | inr h =>
      cases hj : hasTok t (tl "жалоб") with
      | true => simp [detect_metric_column, METRIC_KEYWORDS, List.find?, h1, h2, h3, hj]
      | false => simp [detect_metric_column, METRIC_KEYWORDS, List.find?, h1, h2, h3, hj, h]
  · intro h1 h2 h3 h4 h5
    have h6 : hasTok t (tl "лайков") = false := by
      cases hh : hasTok t (tl "лайков") with
      | false => rfl
      | true => exact absurd (hasTok_mono t (tl "лайк") (tl "лайков") rfl hh) (by simp [h2])
    simp [detect_metric_column, METRIC_KEYWORDS, List.find?, h1, h2, h3, h4, h5, h6]
  · rfl

/-- Witness for C8 at the spec's example, exercising the second (likes)
case with both hypotheses discharged there. -/
theorem detect_metric_priority_w :
    detect_metric_column (tl "сколько лайков получили") (tl "delta_views_count") =
      tl "delta_likes_count" :=
  (detect_metric_priority (tl "сколько лайков получили") (tl "delta_views_count")).2.1
    rfl rfl

/-- C7: the view-threshold extraction strips the spaces embedded in the
captured digit run before integer conversion, giving 100000 and 500 on the
spec's two examples; and in the distinct-creators rule, when the guard words
are present but the threshold regex does not match, the threshold defaults
to 100000. -/
theorem threshold_extraction :
    extractViewThreshold (tl "больше 100 000 просмотров") = some 100000 ∧
    extractViewThreshold (tl "больше 500 просмотров") = some 500 ∧
    (∀ ql : List Char, hasTok ql (tl "креатор") = true → hasTok ql (tl "разных") = true →
      hasTok ql (tl "просмотр") = true → searchThreshold ql = none →
      distinctCreatorsRule ql = .ok (some (distinctTemplate 100000))) := by
  refine ⟨rfl, rfl, fun ql h1 h2 h3 h4 => ?_⟩
  unfold distinctCreatorsRule
  rw [h1, h2, h3, h4]
  rfl

/-- Witness for C7's default case at a concrete query without a matching
threshold phrase. -/
theorem threshold_extraction_w :
    distinctCreatorsRule (tl "сколько разных креаторов с просмотрами") =
      .ok (some (distinctTemplate 100000)) :=
  threshold_extraction.2.2 (tl "сколько разных креаторов с просмотрами") rfl rfl rfl rfl

/-- C3: whenever `_build_datetime_range` returns, the end instant is strictly
after the start instant (when the naive end is less than or equal to the
start, the end is shifted forward by exactly one calendar day); both outputs
always carry the `+00:00` suffix of the `%Y-%m-%d %H:%M:%S+00:00` format; and
on date `2025-11-28` with time range `(22,0,2,0)` the end falls on
`2025-11-29`. -/
theorem build_range_valid :
    (∀ (ds : List Char) (tr : Nat × Nat × Nat × Nat) (s e : PyDT),
      build_datetime_rangeDT ds tr = .ok (s, e) → dtKey s < dtKey e) ∧
    (∀ (ds : List Char) (tr : Nat × Nat × Nat × Nat) (a b : List Char),
      build_datetime_range ds tr = .ok (a, b) →
      endsTok a (tl "+00:00") = true ∧ endsTok b (tl "+00:00") = true) ∧
    build_datetime_range (tl "2025-11-28") (22, 0, 2, 0) =
      .ok (tl "2025-11-28 22:00:00+00:00", tl "2025-11-29 02:00:00+00:00") := by
  refine ⟨?_, ?_, rfl⟩
  · intro ds tr s e h
    obtain ⟨hh1, mm1, hh2, mm2⟩ := tr
    unfold build_datetime_rangeDT at h
    split at h
    · exact absurd h (by simp)
    · rename_i y m d heq
      obtain ⟨hm1, hm2, hd1, hd2⟩ := parseIsoDate_bounds ds y m d heq
      have h31 : daysInMonth y m ≤ 31 := daysInMonth_le31 y m
      simp only at h
      split at h
      · rename_i hv
        obtain ⟨hv1, hv2, hv3, hv4⟩ := hv
        simp only [Except.ok.injEq, Prod.mk.injEq] at h
        obtain ⟨hs, he⟩ := h
        subst hs
        subst he
        by_cases hc :
            dtKey ⟨y, m, d, hh2, mm2⟩ ≤ dtKey ⟨y, m, d, hh1, mm1⟩
        · rw [if_pos hc]
          unfold nextDay
          by_cases hd : d < daysInMonth y m
          · rw [if_pos hd]
            unfold dtKey
            simp only
            omega
          · rw [if_neg hd]
            by_cases hm : m < 12
            · rw [if_pos hm]
              unfold dtKey
              simp only
              omega
            · rw [if_neg hm]
              unfold dtKey
              simp only
              omega
        · rw [if_neg hc]
          unfold dtKey at hc ⊢
          simp only at hc ⊢
          omega
      · exact absurd h (by simp)
  · intro ds tr a b h
    unfold build_datetime_range at h
    cases hdt : build_datetime_rangeDT ds tr with
    | error u => rw [hdt] at h; exact absurd h (by simp)
    | ok p =>
      rw [hdt] at h
      obtain ⟨x, z⟩ := p
      simp only [Except.ok.injEq, Prod.mk.injEq] at h
      obtain ⟨ha, hb⟩ := h
      subst ha
      subst hb
      constructor
      · unfold fmtDt
        exact endsTok_append _ _
      · unfold fmtDt
        exact endsTok_append _ _

/-- Witness for C3's end-after-start part at the spec's midnight-crossing
example. -/
theorem build_range_valid_w :
    dtKey ⟨2025, 11, 28, 22, 0⟩ < dtKey ⟨2025, 11, 29, 2, 0⟩ :=
  build_range_valid.1 (tl "2025-11-28") (22, 0, 2, 0)
    ⟨2025, 11, 28, 22, 0⟩ ⟨2025, 11, 29, 2, 0⟩ rfl

/-- When the calendar-days sub-rule misses and the time-window sub-rule does
not fire, the primary creator branch reduces to its date-range / threshold /
plain-count tail. -/
theorem creatorBranch_no_tw (ql cid : List Char)
    (hc : calendarDaysRule ql cid = none) (htw : timeWindowFires ql = false) :
    creatorBranch ql cid = restCreator ql cid := by
  unfold creatorBranch
  rw [hc]
  unfold timeWindowFires at htw
  cases hsd : parse_single_date ql with
  | none => simp [hsd]
  | some ds =>
    cases htr : parse_time_range ql with
    | none => simp [hsd, htr]
    | some tr =>
      rw [hsd, htr] at htw
      simp only [Option.isSome_some, Bool.true_and] at htw
      simp [hsd, htr, htw]

/-- C4: when the earlier stages miss, the creator id, a single date and a
time range are extracted, the views/delta/growth guard holds and the
datetime construction succeeds, `generate_sql_query` emits exactly the
time-window SQL: a `COALESCE(SUM(vs.<metric>), 0)` joined against the
creator's videos, with the half-open snapshot filter
`vs.created_at >= '<start>' AND vs.created_at < '<end>'` — a snapshot at the
end instant is excluded, one at the start instant included. -/
theorem time_window_rule (q cid ds : List Char) (tr : Nat × Nat × Nat × Nat)
    (si ei : List Char) (llm : LLMOutcome)
    (h1 : exactLookup (lowerStr q) = none)
    (h2 : negativeDeltaRule (lowerStr q) = none)
    (h3 : monthYearRule (lowerStr q) = none)
    (h4 : distinctCreatorsRule (lowerStr q) = .ok none)
    (h5 : searchCreator (lowerStr q) = some cid)
    (h6 : calendarDaysRule (lowerStr q) cid = none)
    (h7 : parse_single_date (lowerStr q) = some ds)
    (h8 : parse_time_range (lowerStr q) = some tr)
    (h9 : viewsDeltaGuard (lowerStr q) = true)
    (h10 : build_datetime_range ds tr = .ok (si, ei)) :
    generate_sql_query llm q =
      .ok (some (timeWindowTemplate cid
        (detect_metric_column (lowerStr q) (tl "delta_views_count")) si ei)) := by
  unfold generate_sql_query creatorBranch
  rw [h1, h2, h3, h4, h5]
  simp [h6, h7, h8, h9, h10]

/-- Witness for C4 at a concrete midnight-crossing creator query. -/
theorem time_window_rule_w :
    generate_sql_query .noClient
      (tl "сколько просмотров получили видео креатора с id bbbbbbbbbbbbbbbbbbbbbbbbbbbbbbbb 28 ноября 2025 с 22:00 до 02:00") =
    .ok (some (timeWindowTemplate (tl "bbbbbbbbbbbbbbbbbbbbbbbbbbbbbbbb")
      (detect_metric_column
        (lowerStr (tl "сколько просмотров получили видео креатора с id bbbbbbbbbbbbbbbbbbbbbbbbbbbbbbbb 28 ноября 2025 с 22:00 до 02:00"))
        (tl "delta_views_count"))
      (tl "2025-11-28 22:00:00+00:00") (tl "2025-11-29 02:00:00+00:00"))) :=
  time_window_rule
    (tl "сколько просмотров получили видео креатора с id bbbbbbbbbbbbbbbbbbbbbbbbbbbbbbbb 28 ноября 2025 с 22:00 до 02:00")
    (tl "bbbbbbbbbbbbbbbbbbbbbbbbbbbbbbbb") (tl "2025-11-28") (22, 0, 2, 0)
    (tl "2025-11-28 22:00:00+00:00") (tl "2025-11-29 02:00:00+00:00") .noClient
    rfl rfl rfl rfl rfl rfl rfl rfl rfl rfl

/-- C5: when the earlier stages and creator sub-rules miss but the
`с <day> <month> <year> по <day> <month> <year>` range matches,
`generate_sql_query` emits the creator date-range COUNT with both bounds
inclusive, the end day extended to ` 23:59:59` — unlike the half-open
time-window interval. -/
theorem date_range_rule (q cid d1 mc1 y1 d2 mc2 y2 : List Char) (llm : LLMOutcome)
    (h1 : exactLookup (lowerStr q) = none)
    (h2 : negativeDeltaRule (lowerStr q) = none)
    (h3 : monthYearRule (lowerStr q) = none)
    (h4 : distinctCreatorsRule (lowerStr q) = .ok none)
    (h5 : searchCreator (lowerStr q) = some cid)
    (h6 : calendarDaysRule (lowerStr q) cid = none)
    (h7 : timeWindowFires (lowerStr q) = false)
    (h8 : searchDateRange (lowerStr q) = some (d1, mc1, y1, d2, mc2, y2)) :
    generate_sql_query llm q =
      .ok (some (dateRangeTemplate cid
        (y1 ++ tl "-" ++ mc1 ++ tl "-" ++ zfill2 d1)
        (y2 ++ tl "-" ++ mc2 ++ tl "-" ++ zfill2 d2 ++ tl " 23:59:59"))) := by
  have hcb := creatorBranch_no_tw (lowerStr q) cid h6 h7
  unfold generate_sql_query
  rw [h1, h2, h3, h4, h5]
  simp [hcb, restCreator, h8]

/-- Witness for C5 at the spec's scenario query. -/
theorem date_range_rule_w :
    generate_sql_query .noClient
      (tl "Сколько видео у креатора с id cccccccccccccccccccccccccccccccc вышло с 1 ноября 2025 по 5 ноября 2025?") =
    .ok (some (dateRangeTemplate (tl "cccccccccccccccccccccccccccccccc")
      (tl "2025" ++ tl "-" ++ tl "11" ++ tl "-" ++ zfill2 (tl "1"))
      (tl "2025" ++ tl "-" ++ tl "11" ++ tl "-" ++ zfill2 (tl "5") ++ tl " 23:59:59"))) :=
  date_range_rule
    (tl "Сколько видео у креатора с id cccccccccccccccccccccccccccccccc вышло с 1 ноября 2025 по 5 ноября 2025?")
    (tl "cccccccccccccccccccccccccccccccc") (tl "1") (tl "11") (tl "2025")
    (tl "5") (tl "11") (tl "2025") .noClient
    rfl rfl rfl rfl rfl rfl rfl rfl

/-- C10: on any lowercased input with a creator id on which neither the
calendar-days sub-rule nor the time-window sub-rule applies, the primary
creator branch and the fallback creator branch agree exactly — the same
date-range, threshold and plain-count SQL strings (and the same raise
behaviour of the shared threshold conversion). -/
theorem creator_branch_agrees (q cid : List Char)
    (h5 : searchCreator (lowerStr q) = some cid)
    (h6 : calendarDaysRule (lowerStr q) cid = none)
    (h7 : timeWindowFires (lowerStr q) = false) :
    creatorBranch (lowerStr q) cid = fallbackCreator (lowerStr q) cid := by
  rw [creatorBranch_no_tw (lowerStr q) cid h6 h7]
  rfl

/-- Witness for C10 at a concrete plain-count creator query. -/
theorem creator_branch_agrees_w :
    creatorBranch (lowerStr (tl "сколько видео у креатора с id dddddddddddddddddddddddddddddddd"))
        (tl "dddddddddddddddddddddddddddddddd") =
      fallbackCreator (lowerStr (tl "сколько видео у креатора с id dddddddddddddddddddddddddddddddd"))
        (tl "dddddddddddddddddddddddddddddddd") :=
  creator_branch_agrees (tl "сколько видео у креатора с id dddddddddddddddddddddddddddddddd")
    (tl "dddddddddddddddddddddddddddddddd") rfl rfl rfl

/-- When every pre-LLM rule stage misses, `generate_sql_query` is the LLM
stage. -/
theorem gen_rules_missed (q : List Char) (llm : LLMOutcome)
    (h1 : exactLookup (lowerStr q) = none)
    (h2 : negativeDeltaRule (lowerStr q) = none)
    (h3 : monthYearRule (lowerStr q) = none)
    (h4 : distinctCreatorsRule (lowerStr q) = .ok none)
    (h5 : searchCreator (lowerStr q) = none) :
    generate_sql_query llm q = llmStage llm q := by
  unfold generate_sql_query
  rw [h1, h2, h3, h4, h5]

/-- C1 counterexample: on this query the LLM path is reached and fails the
output contract with malformed JSON; `generate_sql_query` returns no SQL
(`.ok none`) even though the rule-based fallback would have matched and
produced SQL — contradicting the claim that any output-contract failure
falls through to `_get_fallback_sql`. -/
theorem llm_failure_cex :
    generate_sql_query .respNotJson (tl "сколько всего видео было загружено") = .ok none ∧
    get_fallback_sql (tl "сколько всего видео было загружено") =
      .ok (some (tl "SELECT COUNT(*) FROM videos")) :=
  ⟨rfl, rfl⟩

/-- C1 (amended): when the pre-LLM rule stages miss, a transport raise, an
absent client, a decoded non-dict (AttributeError on `.get`) or a non-string
`sql` value (AttributeError on `.strip`) falls through to
`_get_fallback_sql`; but a JSON decode failure, a missing `sql` key, an
empty stripped SQL, or an SQL not starting case-insensitively with `SELECT`
makes `generate_sql_query` return `None` directly, without consulting the
fallback. -/
theorem llm_failure_amended (q s1 s2 : List Char)
    (h1 : exactLookup (lowerStr q) = none)
    (h2 : negativeDeltaRule (lowerStr q) = none)
    (h3 : monthYearRule (lowerStr q) = none)
    (h4 : distinctCreatorsRule (lowerStr q) = .ok none)
    (h5 : searchCreator (lowerStr q) = none)
    (hs1 : pyStrip s1 = [])
    (hs2 : startsTok (tl "SELECT") (upperStr (pyStrip s2)) = false) :
    generate_sql_query .transportRaise q = get_fallback_sql q ∧
    generate_sql_query .noClient q = get_fallback_sql q ∧
    generate_sql_query .respJsonNonDict q = get_fallback_sql q ∧
    generate_sql_query .respJsonSqlNonString q = get_fallback_sql q ∧
    generate_sql_query .respNotJson q = .ok none ∧
    generate_sql_query .respJsonNoSql q = .ok none ∧
    generate_sql_query (.respJsonSql s1) q = .ok none ∧
    generate_sql_query (.respJsonSql s2) q = .ok none := by
  refine ⟨?_, ?_, ?_, ?_, ?_, ?_, ?_, ?_⟩ <;>
    rw [gen_rules_missed q _ h1 h2 h3 h4 h5]
  · rfl
  · rfl
  · rfl
  · rfl
  · rfl
  · rfl
  · simp [llmStage, hs1]
  · simp [llmStage, hs2]

/-- Witness for C1's amended theorem: the transport-raise case at a concrete
query missed by every rule. -/
theorem llm_failure_amended_w :
    generate_sql_query .transportRaise (tl "покажи статистику") =
      get_fallback_sql (tl "покажи статистику") :=
  (llm_failure_amended (tl "покажи статистику") (tl "   ") (tl "drop table x")
    rfl rfl rfl rfl rfl rfl rfl).1

/-- An uncaught raise inside the distinct-creators rule comes from the threshold conversion. -/
theorem distinct_err (ql : List Char) (u : Unit)
    (h : distinctCreatorsRule ql = .error u) : thresholdRaise ql = true := by
  unfold distinctCreatorsRule at h
  by_cases hg : (hasTok ql (tl "креатор") && hasTok ql (tl "разных") && hasTok ql (tl "просмотр")) = true
  · rw [if_pos hg] at h
    cases ht : searchThreshold ql with
    | none => simp [ht] at h
    | some g =>
      simp only [ht] at h
      cases hi : pyIntOfGroup g with
      | none => simp [thresholdRaise, ht, hi]
      | some n => simp [hi] at h
  · rw [if_neg hg] at h
    simp at h

/-- An uncaught raise inside the creator branch tail comes from the threshold conversion. -/
theorem restCreator_err (ql cid : List Char) (u : Unit)
    (h : restCreator ql cid = .error u) : thresholdRaise ql = true := by
  unfold restCreator at h
  cases hdr : searchDateRange ql with
  | some p =>
    obtain ⟨a, b, c, d, e, f⟩ := p
    simp [hdr] at h
  | none =>
    simp only [hdr] at h
    cases ht : searchThreshold ql with
    | none => simp [ht] at h
    | some g =>
      simp only [ht] at h
      cases hi : pyIntOfGroup g with
      | none => simp [thresholdRaise, ht, hi]
      | some n => simp [hi] at h

/-- An uncaught raise inside the creator branch comes from the time-window datetime construction or the threshold conversion. -/
theorem creatorBranch_err (ql cid : List Char) (u : Unit)
    (h : creatorBranch ql cid = .error u) :
    timeWindowRaise ql = true ∨ thresholdRaise ql = true := by
  unfold creatorBranch at h
  cases hc : calendarDaysRule ql cid with
  | some s => simp [hc] at h
  | none =>
    simp only [hc] at h
    cases hsd : parse_single_date ql with
    | none =>
      cases htr : parse_time_range ql with
      | none =>
        simp only [hsd, htr] at h
        exact Or.inr (restCreator_err ql cid u h)
      | some tr =>
        simp only [hsd, htr] at h
        exact Or.inr (restCreator_err ql cid u h)
    | some ds =>
      cases htr : parse_time_range ql with
      | none =>
        simp only [hsd, htr] at h
        exact Or.inr (restCreator_err ql cid u h)
      | some tr =>
        simp only [hsd, htr] at h
        by_cases hg : viewsDeltaGuard ql = true
        · rw [if_pos hg] at h
          cases hb : build_datetime_range ds tr with
          | ok p =>
            obtain ⟨si, ei⟩ := p
            simp [hb] at h
          | error v =>
            left
            unfold timeWindowRaise
            simp only [hsd, htr]
            unfold build_datetime_range at hb
            cases hdt : build_datetime_rangeDT ds tr with
            | error w => simp [hdt]
            | ok p =>
              obtain ⟨x, z⟩ := p
              simp [hdt] at hb
        · rw [if_neg hg] at h
          exact Or.inr (restCreator_err ql cid u h)

/-- An uncaught raise inside the fallback comes from the threshold conversion. -/
theorem fallback_err (q : List Char) (u : Unit)
    (h : get_fallback_sql q = .error u) : thresholdRaise (lowerStr q) = true := by
  unfold get_fallback_sql at h
  cases hcr : searchCreator (lowerStr q) with
  | some cid =>
    simp only [hcr] at h
    cases hfb : fallbackCreator (lowerStr q) cid with
    | error v =>
      have heq : restCreator (lowerStr q) cid = .error v := hfb
      exact restCreator_err (lowerStr q) cid v heq
    | ok s => simp [hfb] at h
  | none =>
    simp only [hcr] at h
    cases h1 : fbMonthYearRule (lowerStr q) with
    | some s => simp [h1] at h
    | none =>
      simp only [h1] at h
      cases h2 : fbNegativeRule (lowerStr q) with
      | some s => simp [h2] at h
      | none =>
        simp only [h2] at h
        cases h3 : distinctCreatorsRule (lowerStr q) with
        | error v => exact distinct_err (lowerStr q) v h3
        | ok o =>
          cases o with
          | some s => simp [h3] at h
          | none =>
            simp only [h3] at h
            cases h4 : fbGeneral (lowerStr q) with
            | some s => simp [h4] at h
            | none =>
              simp only [h4] at h
              cases h5 : fbSumSection (lowerStr q) with
              | some s => simp [h5] at h
              | none => simp [h5] at h

/-- An uncaught raise inside the LLM stage comes from the fallback threshold conversion. -/
theorem llmStage_err (llm : LLMOutcome) (q : List Char) (u : Unit)
    (h : llmStage llm q = .error u) : thresholdRaise (lowerStr q) = true := by
  cases llm with
  | noClient => exact fallback_err q u h
  | transportRaise => exact fallback_err q u h
  | respNotJson => simp [llmStage] at h
  | respJsonNonDict => exact fallback_err q u h
  | respJsonNoSql => simp [llmStage] at h
  | respJsonSqlNonString => exact fallback_err q u h
  | respJsonSql s =>
    unfold llmStage at h
    split at h <;> try simp_all
    split at h <;> simp_all

/-- C2 (amended): `generate_sql_query` is not raise-free.  Any uncaught
raise comes from exactly two places: the time-window sub-rule building a
datetime from parsed but out-of-range values (e.g. day 31 of February, or an
hour above 23), or a captured view threshold whose digit run contains
non-space whitespace, which `int()` rejects.  A parser that simply finds no
match never raises: on every input on which neither condition holds, the
whole rule machinery (including the fallback) returns without raising. -/
theorem raise_characterization (q : List Char) (llm : LLMOutcome) (u : Unit)
    (h : generate_sql_query llm q = .error u) :
    timeWindowRaise (lowerStr q) = true ∨ thresholdRaise (lowerStr q) = true := by
  unfold generate_sql_query at h
  cases hE : exactLookup (lowerStr q) with
  | some s => simp [hE] at h
  | none =>
    simp only [hE] at h
    cases hN : negativeDeltaRule (lowerStr q) with
    | some s => simp [hN] at h
    | none =>
      simp only [hN] at h
      cases hM : monthYearRule (lowerStr q) with
      | some s => simp [hM] at h
      | none =>
        simp only [hM] at h
        cases hD : distinctCreatorsRule (lowerStr q) with
        | error v => exact Or.inr (distinct_err (lowerStr q) v hD)
        | ok o =>
          cases o with
          | some s => simp [hD] at h
          | none =>
            simp only [hD] at h
            cases hC : searchCreator (lowerStr q) with
            | some cid =>
              simp only [hC] at h
              cases hB : creatorBranch (lowerStr q) cid with
              | error v => exact creatorBranch_err (lowerStr q) cid v hB
              | ok s => simp [hB] at h
            | none =>
              simp only [hC] at h
              exact Or.inr (llmStage_err llm q u h)

/-- C2 counterexample: on this query the creator time-window rule fires with
the syntactically accepted but out-of-range date `31 февраля 2025`
(`"2025-02-31"`), and `generate_sql_query` raises (an uncaught `ValueError`
from `datetime.strptime`) instead of passing the value through or falling
through. -/
theorem raise_cex :
    generate_sql_query .noClient
      (tl "сколько просмотров у креатора с id aaaaaaaaaaaaaaaaaaaaaaaaaaaaaaaa 31 февраля 2025 с 10:00 до 15:00") =
      .error () :=
  rfl

/-- Witness for C2's amended theorem at the raising input. -/
theorem raise_characterization_w :
    timeWindowRaise (lowerStr
      (tl "сколько просмотров у креатора с id aaaaaaaaaaaaaaaaaaaaaaaaaaaaaaaa 31 февраля 2025 с 10:00 до 15:00")) = true ∨
    thresholdRaise (lowerStr
      (tl "сколько просмотров у креатора с id aaaaaaaaaaaaaaaaaaaaaaaaaaaaaaaa 31 февраля 2025 с 10:00 до 15:00")) = true :=
  raise_characterization
    (tl "сколько просмотров у креатора с id aaaaaaaaaaaaaaaaaaaaaaaaaaaaaaaa 31 февраля 2025 с 10:00 до 15:00")
    .noClient () rfl
